import Mathlib

/-!
Shallow embedding of `src/analytics_mcp/client.py`, a single-file CLI chat
client.  The program keeps an in-memory list of conversation turns, sends it
to a remote streaming service, consumes the resulting event sequence while
rendering a subset of events, and appends the finalized assistant turn.

The behaviour of the external streaming library (which events arrive, where
an exception is raised, what `get_final_response()` yields) is a parameter
of the embedding (`StreamBehavior`): the repository's code is deterministic
given that behaviour.
-/

/-- Speaker role of a conversation turn (`"role"` key in the history dicts). -/
inductive Role where
  | system
  | user
  | assistant
deriving DecidableEq, Repr

/-- One element of a turn's `"content"` list: a `{"type": ..., "text": ...}` dict. -/
structure ContentPart where
  type : String
  text : String
deriving DecidableEq, Repr

/-- One conversation turn, as stored in the Python `history` list. -/
structure Turn where
  role : Role
  content : List ContentPart
deriving DecidableEq, Repr

/-- The fixed system-prompt text of the initial turn (client.py lines 53-58). -/
def systemPromptText : String :=
  "You are a helpful assistant in a CLI. When appropriate, include a very brief section titled \x27Reasoning (brief):\x27 with 1–2 short sentences that summarize your plan—do not reveal chain-of-thought or step-by-step reasoning."

/-- The system turn inserted once at session start (client.py lines 47-62). -/
def systemTurn : Turn :=
  ⟨Role.system, [⟨"input_text", systemPromptText⟩]⟩

/-- Initial conversation history: exactly the system turn. -/
def initialHistory : List Turn := [systemTurn]

/-- The user turn appended by `ask` (client.py lines 75-80). -/
def userTurn (text : String) : Turn :=
  ⟨Role.user, [⟨"input_text", text⟩]⟩

/-- The assistant turn appended by `ask` on success (client.py lines 152-157). -/
def assistantTurn (text : String) : Turn :=
  ⟨Role.assistant, [⟨"output_text", text⟩]⟩

/-- The MCP tool descriptor hardcoded in client.py lines 65-70. -/
structure ToolDescriptor where
  type : String
  server_label : String
  server_url : String
  require_approval : String
deriving DecidableEq, Repr

/-- The single tool descriptor built in `main` (client.py lines 64-71). -/
def mcpTool : ToolDescriptor :=
  ⟨"mcp", "google-analytics-mcp",
   "https://tom-nominated-beneficial-joining.trycloudflare.com/mcp/", "never"⟩

/-- `tools = None if args.no_tools else [ ... ]` (client.py line 64). -/
def toolsFor (noTools : Bool) : Option (List ToolDescriptor) :=
  if noTools then none else some [mcpTool]

/-- Python truthiness of `tools or None` (client.py line 90): `None` and the
empty list are falsy and become `None`. -/
def orNone : Option (List ToolDescriptor) → Option (List ToolDescriptor)
  | none => none
  | some l => if l.isEmpty then none else some l

/-- The outbound streaming request payload (client.py lines 87-91). -/
structure StreamRequest where
  model : String
  input : List Turn
  tools : Option (List ToolDescriptor)
deriving DecidableEq, Repr

/-- Python truthiness of an optional string field (`getattr(event, f, None)`
checks: `None` and the empty string are falsy). -/
def truthy : Option String → Bool
  | none => false
  | some s => !s.isEmpty

/-- A typed response event, discriminated in client.py by string comparison on
`event.type` (lines 93-138).  Structured payloads (`args`, `result`, ...) are
only ever pretty-printed, so they are carried as opaque strings. -/
inductive Event where
  | outputTextDelta (delta : String)
  | outputTextDone
  | toolCallBegin (tool : String) (callId : Option String) (args : Option String)
  | toolCallDelta (argsDelta : Option String)
  | toolCallOutput (outputText : Option String) (isStreaming : Bool) (outputImage : Option String)
  | toolCallCompleted (result : Option String)
  | error (payload : String)
  | other (tag : Option String)
deriving DecidableEq, Repr

/-- Whether an event is the error variant (`t == "response.error"`). -/
def Event.isError : Event → Bool
  | .error _ => true
  | _ => false

/-- One observable terminal-rendering action produced while consuming the
event stream.  Each constructor corresponds to one branch of the event
dispatch in client.py lines 96-138 (or to the `except Exception` rendering,
lines 145-147). -/
inductive RenderAction where
  | writeDelta (s : String)
  | toolBegin (tool : String) (callId : Option String) (args : Option String)
  | toolArgsDelta (argsDelta : Option String)
  | toolOutput (outputText : Option String) (isStreaming : Bool) (outputImage : Option String)
  | toolCompleted (result : Option String)
  | renderError (payload : String)
  | renderExc
deriving DecidableEq, Repr

/-- Terminal output produced for one consumed event (client.py lines 96-138).

* A text fragment is written to stdout immediately.
* `response.output_text.done` executes `print("", end="")`, which writes
  nothing, so it yields no action.
* The tool-call branches are guarded by `args.trace`; `begin`, `output` and
  `completed` each unconditionally print a banner (plus conditional detail),
  collapsed here into one action carrying the event's fields, while `delta`
  prints only when `args_delta` is truthy.
* The error branch always renders the payload.
* An event matching no branch (unknown type, or tool events without trace)
  produces no output. -/
def renderEvent (trace : Bool) : Event → List RenderAction
  | .outputTextDelta d => [.writeDelta d]
  | .outputTextDone => []
  | .toolCallBegin tool callId args =>
      if trace then [.toolBegin tool callId args] else []
  | .toolCallDelta argsDelta =>
      if trace && truthy argsDelta then [.toolArgsDelta argsDelta] else []
  | .toolCallOutput outputText isStreaming outputImage =>
      if trace then [.toolOutput outputText isStreaming outputImage] else []
  | .toolCallCompleted result =>
      if trace then [.toolCompleted result] else []
  | .error payload => [.renderError payload]
  | .other _ => []

/-- A distinguishable exception raised by the external library. -/
inductive ExcKind where
  | keyboard
  | other
deriving DecidableEq, Repr

/-- Outcome of `stream.get_final_response()` (client.py line 141): either a
response object whose `output_text` is the given optional string, or a raised
exception. -/
inductive FinalBehavior where
  | ok (outputText : Option String)
  | raise (k : ExcKind)
deriving DecidableEq, Repr

/-- Behaviour of the external stream library during one exchange, from the
point of view of the code under verification:

* `events`: the events the iterator yields, in order, before either ending
  normally or raising.
* `exc`: when `some k`, fetching the event after `events` raises an exception
  of kind `k` (so `exc = some k` with `events = []` models an exception while
  establishing the stream).  The loop only reaches that point if no error
  event made it `break` first.
* `final`: what `get_final_response()` does, when the loop exits without an
  exception. -/
structure StreamBehavior where
  events : List Event
  exc : Option ExcKind
  final : FinalBehavior
deriving DecidableEq, Repr

/-- Whether the event list contains an error event anywhere. -/
def containsError (evs : List Event) : Bool := evs.any Event.isError

/-- The prefix of the event list actually consumed by the `for` loop: the
error branch ends in `break` (client.py line 138), so consumption stops right
after the first error event; with no error event every yielded event is
consumed. -/
def takeThroughError : List Event → List Event
  | [] => []
  | e :: rest => if e.isError then [e] else e :: takeThroughError rest

/-- How one call of `ask` ends: `interrupted` models a re-raised
`KeyboardInterrupt` (client.py lines 143-144) propagating to the caller,
`returned r` a normal return of the string `r`. -/
inductive AskOutcome where
  | interrupted
  | returned (reply : String)
deriving DecidableEq, Repr

/-- Everything observable about one call of `ask`: the outbound request, the
history list after the call, how the call ended, which events were consumed
and which rendering actions were produced. -/
structure AskResult where
  request : StreamRequest
  history : List Turn
  outcome : AskOutcome
  consumed : List Event
  renders : List RenderAction
deriving DecidableEq, Repr

/-- Code after the `for` loop exits without an exception (client.py lines
141-157): `get_final_response()` is called; a `KeyboardInterrupt` from it
propagates, any other exception is caught, rendered, and turned into
`return ""`; on success `reply = resp.output_text or ""` is appended as an
assistant turn and returned. -/
def afterLoop (req : StreamRequest) (hist1 : List Turn) (consumed : List Event)
    (renders : List RenderAction) : FinalBehavior → AskResult
  | .raise .keyboard => ⟨req, hist1, .interrupted, consumed, renders⟩
  | .raise .other => ⟨req, hist1, .returned "", consumed, renders ++ [.renderExc]⟩
  | .ok t =>
      ⟨req, hist1 ++ [assistantTurn (t.getD "")], .returned (t.getD ""), consumed, renders⟩

/-- The `ask` closure of client.py lines 73-175.  It appends the user turn,
opens the streaming request, consumes events (breaking at the first error
event), and finalizes.  An exception raised while establishing or consuming
the stream (`sb.exc`, reached only when no error event broke the loop first)
is re-raised when it is a `KeyboardInterrupt` and otherwise caught, rendered,
and converted into `return ""`. -/
def ask (model : String) (trace noTools : Bool) (history : List Turn)
    (userText : String) (sb : StreamBehavior) : AskResult :=
  let hist1 := history ++ [userTurn userText]
  let req : StreamRequest := ⟨model, hist1, orNone (toolsFor noTools)⟩
  let consumed := takeThroughError sb.events
  let renders := consumed.flatMap (renderEvent trace)
  if containsError sb.events then
    afterLoop req hist1 consumed renders sb.final
  else
    match sb.exc with
    | some .keyboard => ⟨req, hist1, .interrupted, consumed, renders⟩
    | some .other => ⟨req, hist1, .returned "", consumed, renders ++ [.renderExc]⟩
    | none => afterLoop req hist1 consumed renders sb.final

/-- Modelled from the spec: the stream library (outside this repository)
terminates the event sequence with "a terminal 'final response' object
exposing the concatenated output text" (spec section 6); this is that
response's text, the concatenation of the text-fragment deltas. -/
def finalResponseText : List Event → String
  | [] => ""
  | .outputTextDelta d :: rest => d ++ finalResponseText rest
  | _ :: rest => finalResponseText rest

/-- User text and stream behaviour driving one exchange. -/
structure ExchangeInput where
  userText : String
  stream : StreamBehavior
deriving DecidableEq, Repr

/-- Whether an exchange with this stream behaviour takes the success path of
`ask`: the loop exits without an exception (either all events are consumed
with none scheduled to raise, or an error event breaks first) and
`get_final_response()` returns a response, so an assistant turn is appended. -/
def exchangeSucceeds (sb : StreamBehavior) : Bool :=
  (containsError sb.events || sb.exc.isNone) &&
    (match sb.final with | .ok _ => true | .raise _ => false)

/-- Folding successive `ask` calls over the history, one per exchange input. -/
def runExchanges (model : String) (trace noTools : Bool) :
    List Turn → List ExchangeInput → List Turn
  | hist, [] => hist
  | hist, ex :: rest =>
      runExchanges model trace noTools
        (ask model trace noTools hist ex.userText ex.stream).history rest

/-- Whitespace as recognized by the argument-free Python `str.strip()`:
space, tab, newline, carriage return, vertical tab, form feed. -/
def isPyWhitespace (c : Char) : Bool :=
  c == ' ' || c == '\t' || c == '\n' || c == '\r' || c == '\x0b' || c == '\x0c'

/-- Python `s.strip()`: the string with leading and trailing whitespace
removed (client.py line 187). -/
def pyStrip (s : String) : String :=
  ⟨((s.data.dropWhile isPyWhitespace).reverse.dropWhile isPyWhitespace).reverse⟩

/-- One iteration of the interactive loop (client.py lines 185-190): the raw
line is stripped; an empty result skips (`continue`) without touching the
history or issuing a request, otherwise `ask` runs on the stripped text.  The
boolean records whether an exchange was triggered. -/
def loopStep (model : String) (trace noTools : Bool) (hist : List Turn)
    (raw : String) (sb : StreamBehavior) : List Turn × Bool :=
  let userText := pyStrip raw
  if userText.isEmpty then (hist, false)
  else ((ask model trace noTools hist userText sb).history, true)

/-- Handling of the `-m` (long form `--message`) flag (client.py lines
179-182): `if
args.message:` triggers an initial exchange with the message text exactly as
given (no stripping); `None` and the empty string are falsy and skip it. -/
def initialMessageAction (message : Option String) : Option String :=
  match message with
  | none => none
  | some s => if s.isEmpty then none else some s

/-- The reply string an exchange produces when it reaches `get_final_response`
successfully: `resp.output_text or ""`. -/
def replyText (sb : StreamBehavior) : String :=
  match sb.final with
  | .ok t => t.getD ""
  | .raise _ => ""

/-- The turns one call of `ask` appends to the history: always the user turn,
plus the assistant turn exactly when the exchange takes the success path. -/
def askAppended (u : String) (sb : StreamBehavior) : List Turn :=
  if exchangeSucceeds sb then [userTurn u, assistantTurn (replyText sb)]
  else [userTurn u]

/-- A stream that yields an error event, then one more text fragment, and
whose final-response call still returns a response with text "done". -/
def c1Stream : StreamBehavior :=
  ⟨[Event.error "boom", Event.outputTextDelta "after"], none,
   FinalBehavior.ok (some "done")⟩

/-- The scripted event sequence of spec section 8: three text fragments and a
completion marker. -/
def helloEvents : List Event :=
  [Event.outputTextDelta "Hel", Event.outputTextDelta "lo",
   Event.outputTextDelta "!", Event.outputTextDone]

theorem ask_history_eq (model : String) (trace noTools : Bool) (hist : List Turn)
    (u : String) (sb : StreamBehavior) :
    (ask model trace noTools hist u sb).history = hist ++ askAppended u sb := by
  obtain ⟨evs, exc, fin⟩ := sb
  unfold ask askAppended exchangeSucceeds replyText
  cases h1 : containsError evs
  · cases exc with
    | none => cases fin with
      | ok t => simp [afterLoop]
      | raise k => cases k <;> simp [afterLoop]
    | some k => cases k <;> simp [afterLoop]
  · cases fin with
    | ok t => simp [afterLoop]
    | raise k => cases k <;> simp [afterLoop]

theorem runExchanges_history_eq (model : String) (trace noTools : Bool)
    (hist : List Turn) (exs : List ExchangeInput) :
    ∃ tail, runExchanges model trace noTools hist exs = hist ++ tail := by
  induction exs generalizing hist with
  | nil => exact ⟨[], by simp [runExchanges]⟩
  | cons ex rest ih =>
      obtain ⟨tail, htail⟩ :=
        ih ((ask model trace noTools hist ex.userText ex.stream).history)
      refine ⟨askAppended ex.userText ex.stream ++ tail, ?_⟩
      rw [runExchanges, htail, ask_history_eq, List.append_assoc]

theorem runExchanges_length_of_succeeds (model : String) (trace noTools : Bool)
    (hist : List Turn) (exs : List ExchangeInput)
    (h : ∀ ex ∈ exs, exchangeSucceeds ex.stream = true) :
    (runExchanges model trace noTools hist exs).length
      = hist.length + 2 * exs.length := by
  induction exs generalizing hist with
  | nil => simp [runExchanges]
  | cons ex rest ih =>
      have hs : exchangeSucceeds ex.stream = true := h ex (by simp)
      rw [runExchanges, ih _ (fun e he => h e (by simp [he])), ask_history_eq]
      simp [askAppended, hs]
      omega

theorem takeThroughError_of_no_error (evs : List Event)
    (h : containsError evs = false) : takeThroughError evs = evs := by
  induction evs with
  | nil => rfl
  | cons e rest ih =>
      simp [containsError] at h
      simp [takeThroughError, h.1, ih (by simp [containsError]; exact h.2)]

theorem takeThroughError_append_error (pre post : List Event) (payload : String)
    (h : containsError pre = false) :
    takeThroughError (pre ++ Event.error payload :: post) = pre ++ [Event.error payload] := by
  induction pre with
  | nil => simp [takeThroughError, Event.isError]
  | cons e rest ih =>
      simp [containsError] at h
      simp [takeThroughError, h.1, ih (by simp [containsError]; exact h.2)]

theorem containsError_append_error (pre post : List Event) (payload : String) :
    containsError (pre ++ Event.error payload :: post) = true := by
  simp [containsError, Event.isError]

/-- C1, as stated, is false on the code: in this exchange an error event is
the first event consumed (and consumption stops there), yet because the code
still calls `get_final_response()` after the `break` and that call returns a
response, an assistant turn is appended to the turn sequence. -/
theorem c1_counterexample :
    (ask "gpt-5-mini" false false initialHistory "hi" c1Stream).consumed
        = [Event.error "boom"] ∧
    (ask "gpt-5-mini" false false initialHistory "hi" c1Stream).history
        = initialHistory ++ [userTurn "hi", assistantTurn "done"] ∧
    (ask "gpt-5-mini" false false initialHistory "hi" c1Stream).outcome
        = AskOutcome.returned "done" := by
  refine ⟨rfl, rfl, rfl⟩

/-- C1 amended: when an error event is received while consuming the event
sequence, no event after it is rendered or consumed in that exchange; and if
retrieving the final response afterwards raises a (non-interrupt) exception,
no assistant turn is appended and the exchange returns the empty string. -/
theorem c1_amended (model : String) (trace noTools : Bool) (hist : List Turn)
    (u payload : String) (pre post : List Event) (exc : Option ExcKind)
    (fin : FinalBehavior) (hpre : containsError pre = false) :
    (ask model trace noTools hist u ⟨pre ++ Event.error payload :: post, exc, fin⟩).consumed
        = pre ++ [Event.error payload] ∧
    (ask model trace noTools hist u ⟨pre ++ Event.error payload :: post, exc, fin⟩).renders
        = (pre ++ [Event.error payload]).flatMap (renderEvent trace)
          ++ (if fin = FinalBehavior.raise ExcKind.other then [RenderAction.renderExc] else []) ∧
    (fin = FinalBehavior.raise ExcKind.other →
      (ask model trace noTools hist u ⟨pre ++ Event.error payload :: post, exc, fin⟩).history
          = hist ++ [userTurn u] ∧
      (ask model trace noTools hist u ⟨pre ++ Event.error payload :: post, exc, fin⟩).outcome
          = AskOutcome.returned "") := by
  have hc := containsError_append_error pre post payload
  have ht := takeThroughError_append_error pre post payload hpre
  unfold ask
  simp only [hc, ht, if_true]
  refine ⟨?_, ?_, ?_⟩
  · cases fin with
    | ok t => simp [afterLoop]
    | raise k => cases k <;> simp [afterLoop]
  · cases fin with
    | ok t => simp [afterLoop]
    | raise k => cases k <;> simp [afterLoop]
  · rintro rfl
    simp [afterLoop]

/-- C1 amended, witnessed at a concrete input: one text fragment, then an
error event, then a stray fragment, with a failing final-response call. -/
theorem c1_amended_witness :
    (ask "gpt-5-mini" true false initialHistory "q"
        ⟨[Event.outputTextDelta "a", Event.error "boom", Event.outputTextDelta "b"],
         none, FinalBehavior.raise ExcKind.other⟩).consumed
        = [Event.outputTextDelta "a", Event.error "boom"] ∧
    (ask "gpt-5-mini" true false initialHistory "q"
        ⟨[Event.outputTextDelta "a", Event.error "boom", Event.outputTextDelta "b"],
         none, FinalBehavior.raise ExcKind.other⟩).renders
        = [Event.outputTextDelta "a", Event.error "boom"].flatMap (renderEvent true)
          ++ (if (FinalBehavior.raise ExcKind.other : FinalBehavior)
                  = FinalBehavior.raise ExcKind.other
              then [RenderAction.renderExc] else []) ∧
    (ask "gpt-5-mini" true false initialHistory "q"
        ⟨[Event.outputTextDelta "a", Event.error "boom", Event.outputTextDelta "b"],
         none, FinalBehavior.raise ExcKind.other⟩).history
        = initialHistory ++ [userTurn "q"] ∧
    (ask "gpt-5-mini" true false initialHistory "q"
        ⟨[Event.outputTextDelta "a", Event.error "boom", Event.outputTextDelta "b"],
         none, FinalBehavior.raise ExcKind.other⟩).outcome
        = AskOutcome.returned "" := by
  have h := c1_amended "gpt-5-mini" true false initialHistory "q" "boom"
    [Event.outputTextDelta "a"] [Event.outputTextDelta "b"] none
    (FinalBehavior.raise ExcKind.other) (by decide)
  exact ⟨h.1, h.2.1, (h.2.2 rfl).1, (h.2.2 rfl).2⟩

/-- C2: an exception other than a user interrupt raised while establishing or
consuming the stream is caught (the call returns normally), the exchange
returns the empty string, and the history afterwards is the previous history
plus the user turn of this exchange — no assistant turn. -/
theorem c2_exception_absorbed (model : String) (trace noTools : Bool)
    (hist : List Turn) (u : String) (evs : List Event) (fin : FinalBehavior)
    (h : containsError evs = false) :
    (ask model trace noTools hist u ⟨evs, some ExcKind.other, fin⟩).outcome
        = AskOutcome.returned "" ∧
    (ask model trace noTools hist u ⟨evs, some ExcKind.other, fin⟩).history
        = hist ++ [userTurn u] := by
  unfold ask
  simp [h]

/-- C2 witnessed at a concrete input: an exception while establishing the
stream (no events yielded at all). -/
theorem c2_exception_absorbed_witness :
    (ask "gpt-5-mini" false false initialHistory "hi"
        ⟨[], some ExcKind.other, FinalBehavior.ok (some "never")⟩).outcome
        = AskOutcome.returned "" ∧
    (ask "gpt-5-mini" false false initialHistory "hi"
        ⟨[], some ExcKind.other, FinalBehavior.ok (some "never")⟩).history
        = initialHistory ++ [userTurn "hi"] :=
  c2_exception_absorbed "gpt-5-mini" false false initialHistory "hi" []
    (FinalBehavior.ok (some "never")) (by decide)

/-- C3: for every session and every list of exchanges that all take the
success path, the history after running them from the initial history has
length 1 + 2N — the system turn plus one user and one assistant turn per
exchange. -/
theorem c3_history_length (model : String) (trace noTools : Bool)
    (exs : List ExchangeInput)
    (h : ∀ ex ∈ exs, exchangeSucceeds ex.stream = true) :
    (runExchanges model trace noTools initialHistory exs).length
      = 1 + 2 * exs.length := by
  rw [runExchanges_length_of_succeeds model trace noTools initialHistory exs h]
  simp [initialHistory]

/-- C3 witnessed on a session of two concrete successful exchanges. -/
theorem c3_history_length_witness :
    (runExchanges "gpt-5-mini" false false initialHistory
        [⟨"hi", ⟨[Event.outputTextDelta "a", Event.outputTextDone], none,
            FinalBehavior.ok (some "a")⟩⟩,
         ⟨"more", ⟨[], none, FinalBehavior.ok none⟩⟩]).length = 1 + 2 * 2 := by
  have h := c3_history_length "gpt-5-mini" false false
    [⟨"hi", ⟨[Event.outputTextDelta "a", Event.outputTextDone], none,
        FinalBehavior.ok (some "a")⟩⟩,
     ⟨"more", ⟨[], none, FinalBehavior.ok none⟩⟩]
    (by decide)
  simpa using h

/-- C4: on the scripted event sequence of three text fragments "Hel", "lo",
"!" followed by a completion marker, with the final response exposing the
concatenated output text (modelled from the spec, section 6), the accumulated
reply is "Hello!", each fragment is rendered as it arrives, that text is
returned, and exactly one assistant turn with that text is appended. -/
theorem c4_hello_exchange :
    finalResponseText helloEvents = "Hello!" ∧
    (ask "gpt-5-mini" false false initialHistory "greet"
        ⟨helloEvents, none, FinalBehavior.ok (some (finalResponseText helloEvents))⟩).outcome
        = AskOutcome.returned "Hello!" ∧
    (ask "gpt-5-mini" false false initialHistory "greet"
        ⟨helloEvents, none, FinalBehavior.ok (some (finalResponseText helloEvents))⟩).history
        = initialHistory ++ [userTurn "greet", assistantTurn "Hello!"] ∧
    (ask "gpt-5-mini" false false initialHistory "greet"
        ⟨helloEvents, none, FinalBehavior.ok (some (finalResponseText helloEvents))⟩).renders
        = [RenderAction.writeDelta "Hel", RenderAction.writeDelta "lo",
           RenderAction.writeDelta "!"] := by
  refine ⟨rfl, rfl, rfl, rfl⟩

/-- C5: a prompt line that strips to the empty string (empty or
whitespace-only) leaves the history unchanged and triggers no exchange. -/
theorem c5_blank_line_skipped (model : String) (trace noTools : Bool)
    (hist : List Turn) (raw : String) (sb : StreamBehavior)
    (h : pyStrip raw = "") :
    loopStep model trace noTools hist raw sb = (hist, false) := by
  unfold loopStep
  simp [h]
  decide

/-- C5 witnessed on a concrete whitespace-only line. -/
theorem c5_blank_line_skipped_witness :
    loopStep "gpt-5-mini" false false initialHistory " \t  "
        ⟨[], none, FinalBehavior.ok none⟩ = (initialHistory, false) :=
  c5_blank_line_skipped "gpt-5-mini" false false initialHistory " \t  "
    ⟨[], none, FinalBehavior.ok none⟩ (by decide)

/-- C6: with the no-tools flag set, the outbound streaming request carries no
tool descriptor, for every trace setting, model, history, user text and
stream behaviour. -/
theorem c6_no_tools (model : String) (trace : Bool) (hist : List Turn)
    (u : String) (sb : StreamBehavior) :
    (ask model trace true hist u sb).request.tools = none := by
  obtain ⟨evs, exc, fin⟩ := sb
  unfold ask
  cases h1 : containsError evs
  · cases exc with
    | none => cases fin with
      | ok t => simp [afterLoop, orNone, toolsFor]
      | raise k => cases k <;> simp [afterLoop, orNone, toolsFor]
    | some k => cases k <;> simp [afterLoop, orNone, toolsFor]
  · cases fin with
    | ok t => simp [afterLoop, orNone, toolsFor]
    | raise k => cases k <;> simp [afterLoop, orNone, toolsFor]

/-- C7: every `ask` call only appends turns after the existing history, and
after any session run starting from the initial history the first turn is
still the system turn inserted at session start. -/
theorem c7_system_turn_invariant :
    (∀ model : String, ∀ trace noTools : Bool, ∀ hist : List Turn,
      ∀ u : String, ∀ sb : StreamBehavior,
        ∃ tail, (ask model trace noTools hist u sb).history = hist ++ tail) ∧
    (∀ model : String, ∀ trace noTools : Bool, ∀ exs : List ExchangeInput,
        (runExchanges model trace noTools initialHistory exs).head?
          = some systemTurn) := by
  constructor
  · intro model trace noTools hist u sb
    exact ⟨askAppended u sb, ask_history_eq model trace noTools hist u sb⟩
  · intro model trace noTools exs
    obtain ⟨tail, htail⟩ :=
      runExchanges_history_eq model trace noTools initialHistory exs
    rw [htail]
    simp [initialHistory]

/-- C8, as stated, is false on the code: in trace mode a tool-call
argument-fragment event with no argument payload matches the dispatch branch
but prints nothing (client.py lines 115-119 guard all printing behind the
truthiness of `args_delta`), so zero rendering actions are produced rather
than exactly one. -/
theorem c8_counterexample :
    renderEvent true (Event.toolCallDelta none) = [] := by
  rfl

/-- C8 amended: in trace mode, tool-call begin, output and completion events
each produce exactly one rendering action, while an argument-fragment event
produces exactly one when it carries a truthy argument payload and none
otherwise; with trace off, all four variants produce no terminal output. -/
theorem c8_amended (tool : String) (callId args argsDelta outputText img res : Option String)
    (isStreaming : Bool) :
    (renderEvent true (Event.toolCallBegin tool callId args)).length = 1 ∧
    (renderEvent true (Event.toolCallOutput outputText isStreaming img)).length = 1 ∧
    (renderEvent true (Event.toolCallCompleted res)).length = 1 ∧
    (renderEvent true (Event.toolCallDelta argsDelta)).length
        = (if truthy argsDelta then 1 else 0) ∧
    renderEvent false (Event.toolCallBegin tool callId args) = [] ∧
    renderEvent false (Event.toolCallDelta argsDelta) = [] ∧
    renderEvent false (Event.toolCallOutput outputText isStreaming img) = [] ∧
    renderEvent false (Event.toolCallCompleted res) = [] := by
  refine ⟨rfl, rfl, rfl, ?_, rfl, rfl, rfl, rfl⟩
  by_cases h : truthy argsDelta = true
  · simp [renderEvent, h]
  · simp only [Bool.not_eq_true] at h
    simp [renderEvent, h]

/-- C9: a non-empty initial message triggers the initial exchange with the
message text exactly as given (no stripping) and appends a user turn carrying
exactly that text, even when the text is all whitespace; a missing message or
the empty string skips the initial exchange. -/
theorem c9_initial_message (s model : String) (trace noTools : Bool)
    (hist : List Turn) (sb : StreamBehavior) (h : s.isEmpty = false) :
    initialMessageAction (some s) = some s ∧
    (∃ tail, (ask model trace noTools hist s sb).history
        = hist ++ userTurn s :: tail) ∧
    initialMessageAction none = none ∧
    initialMessageAction (some "") = none := by
  refine ⟨by simp [initialMessageAction, h], ?_, rfl, rfl⟩
  rw [ask_history_eq]
  unfold askAppended
  by_cases hs : exchangeSucceeds sb = true
  · exact ⟨[assistantTurn (replyText sb)], by simp [hs]⟩
  · exact ⟨[], by simp [hs]⟩

/-- C9 witnessed on a whitespace-only initial message: the whole message is
kept and an exchange runs. -/
theorem c9_initial_message_witness :
    initialMessageAction (some "   ") = some "   " ∧
    (∃ tail, (ask "gpt-5-mini" false false initialHistory "   "
        ⟨[], none, FinalBehavior.ok none⟩).history
        = initialHistory ++ userTurn "   " :: tail) ∧
    initialMessageAction none = none ∧
    initialMessageAction (some "") = none :=
  c9_initial_message "   " "gpt-5-mini" false false initialHistory
    ⟨[], none, FinalBehavior.ok none⟩ (by decide)

/-- C10: every exchange that reaches the final response without an exception
appends an assistant turn even when the response's output text is empty or
absent: the appended assistant turn has empty text and the exchange returns
the empty string. -/
theorem c10_empty_final_text (model : String) (trace noTools : Bool)
    (hist : List Turn) (u : String) (evs : List Event) (exc : Option ExcKind)
    (t : Option String) (hreach : containsError evs = true ∨ exc = none)
    (ht : t = none ∨ t = some "") :
    (ask model trace noTools hist u ⟨evs, exc, FinalBehavior.ok t⟩).outcome
        = AskOutcome.returned "" ∧
    (ask model trace noTools hist u ⟨evs, exc, FinalBehavior.ok t⟩).history
        = hist ++ [userTurn u, assistantTurn ""] := by
  have hgetD : t.getD "" = "" := by
    rcases ht with rfl | rfl <;> rfl
  unfold ask
  rcases hreach with hr | hr
  · simp [hr, afterLoop, hgetD]
  · subst hr
    cases h1 : containsError evs <;> simp [afterLoop, hgetD]

/-- C10 witnessed on a concrete exchange whose final response has no output
text at all. -/
theorem c10_empty_final_text_witness :
    (ask "gpt-5-mini" false false initialHistory "hi"
        ⟨[Event.outputTextDone], none, FinalBehavior.ok none⟩).outcome
        = AskOutcome.returned "" ∧
    (ask "gpt-5-mini" false false initialHistory "hi"
        ⟨[Event.outputTextDone], none, FinalBehavior.ok none⟩).history
        = initialHistory ++ [userTurn "hi", assistantTurn ""] :=
  c10_empty_final_text "gpt-5-mini" false false initialHistory "hi"
    [Event.outputTextDone] none none (Or.inr rfl) (Or.inl rfl)
